import Mathlib

/-!
Verification of the gtfs-rt-aggregator repository against its specification.

The repository is a GTFS-Realtime data aggregator: a fetcher writes individual
parquet snapshots to an object store and an aggregator compacts them into
time-bucketed aggregate files.  The storage mock of `tests/mocks.py` is embedded
directly; the service-layer functions whose modules are not shipped with the
test tree (fetcher service, aggregator service, CLI) are modelled from the
specification, as flagged in their doc comments.
-/

namespace GtfsRt

/-- Byte payloads stored by the mock storage (a Python `bytes` value is a
sequence of byte values). -/
abbrev Payload := List Nat

/-- Error raised by storage operations; `tests/mocks.py` raises
`FileNotFoundError` from `read_bytes`. -/
inductive StorageErr where
  | fileNotFound (msg : String)
deriving DecidableEq

/-! ### Python dict as an association list

`MockStorageInterface.saved_data` is a Python dict keyed by path strings:
assignment replaces the value of an existing key in place and appends a new
key at the end; `del` removes the key; iteration follows insertion order. -/

/-- Python dict assignment `d[k] = v`: replace in place if present, else append. -/
def dictInsert (k : String) (v : α) : List (String × α) → List (String × α)
  | [] => [(k, v)]
  | (k', v') :: rest => if k' = k then (k, v) :: rest else (k', v') :: dictInsert k v rest

/-- Python dict read `d.get(k)`. -/
def dictLookup (k : String) : List (String × α) → Option α
  | [] => none
  | (k', v') :: rest => if k' = k then some v' else dictLookup k rest

/-- Python dict deletion `del d[k]` (removes the first, hence with unique keys
the only, binding of k). -/
def dictErase (k : String) : List (String × α) → List (String × α)
  | [] => []
  | (k', v') :: rest => if k' = k then rest else (k', v') :: dictErase k rest

/-- The in-memory storage of `MockStorageInterface` (tests/mocks.py): the
`saved_data` dict mapping path strings to payloads. -/
structure MockStorage (α : Type) where
  saved_data : List (String × α)
deriving DecidableEq

/-- Keys of the storage dict in insertion order (`saved_data.keys()`). -/
def MockStorage.keys (st : MockStorage α) : List String :=
  st.saved_data.map Prod.fst

/-! ### String helpers used by `list_files`

These embed the Python library calls of `tests/mocks.py`
(`os.path.basename`, `fnmatch.fnmatch`, `re.search`, `str.startswith`)
on explicit character lists. -/

/-- Does the character list `cs` start with `pre`? (Python `str.startswith`.) -/
def charsStartWith : List Char → List Char → Bool
  | _, [] => true
  | [], _ :: _ => false
  | c :: cs, d :: ds => c = d && charsStartWith cs ds

/-- Python `str.startswith`. -/
def strStartsWith (s pre : String) : Bool :=
  charsStartWith s.data pre.data

/-- Does `needle` occur as a contiguous run inside `hay`? -/
def charsContain (hay needle : List Char) : Bool :=
  match hay with
  | [] => needle.isEmpty
  | _ :: rest => charsStartWith hay needle || charsContain rest needle

/-- Modelled semantics of `re.search(pattern, s)` on the literal regex
fragment only: a pattern made of literal characters (no regex metacharacters)
matches somewhere in `s` iff it occurs as a substring of `s`.  On patterns
with metacharacters `re.search` behaves differently (and raises `re.error` on
invalid regexes), so every theorem quantifying over patterns carries the
`modelledPattern` fragment hypothesis below; uses on concrete strings are
within the fragment. -/
def reSearchLit (pattern s : String) : Bool :=
  charsContain s.data pattern.data

/-- Glob matching on character lists implementing `fnmatch.fnmatch` for the
wildcards * and ? only; character classes ([seq], [!seq]) are not modelled,
which the `modelledPattern` fragment hypothesis below excludes. -/
def globMatchChars : List Char → List Char → Bool
  | [], [] => true
  | [], _ :: _ => false
  | '*' :: ps, [] => globMatchChars ps []
  | '*' :: ps, c :: cs => globMatchChars ps (c :: cs) || globMatchChars ('*' :: ps) cs
  | '?' :: _, [] => false
  | '?' :: ps, _ :: cs => globMatchChars ps cs
  | _ :: _, [] => false
  | p :: ps, c :: cs => p = c && globMatchChars ps cs
termination_by pat s => (pat.length, s.length)

/-- Python `fnmatch.fnmatch(name, pattern)` (POSIX: case preserved). -/
def globMatch (name pattern : String) : Bool :=
  globMatchChars pattern.data name.data

/-- Characters of the basename: everything after the last slash
(`os.path.basename`). -/
def basenameChars (cs : List Char) : List Char :=
  cs.foldl (fun acc c => if c = '/' then [] else acc ++ [c]) []

/-- Python `os.path.basename`. -/
def basename (path : String) : String :=
  ⟨basenameChars path.data⟩

/-! ### The MockStorageInterface operations (tests/mocks.py) -/

/-- `save_bytes(data, path)`: store the payload under the path and return the
path. -/
def MockStorage.save_bytes (st : MockStorage α) (data : α) (path : String) :
    MockStorage α × String :=
  (⟨dictInsert path data st.saved_data⟩, path)

/-- `read_bytes(path)`: raise `FileNotFoundError` if the path was never stored,
else return the stored payload. -/
def MockStorage.read_bytes (st : MockStorage α) (path : String) : Except StorageErr α :=
  match dictLookup path st.saved_data with
  | none => .error (.fileNotFound ("File not found: " ++ path))
  | some v => .ok v

/-- `list_files(directory, pattern)`: walk the stored keys in order, keep those
whose string starts with `directory`; with no pattern keep all of those, with a
pattern containing * glob-match the basename, otherwise regex-search the FULL
path (the source calls `re.search(pattern, path)`, not on the basename). -/
def MockStorage.list_files (st : MockStorage α) (directory : String)
    (pattern : Option String) : List String :=
  st.keys.filter (fun path =>
    strStartsWith path directory &&
      match pattern with
      | none => true
      | some pat =>
        if pat.data.contains '*' then globMatch (basename path) pat
        else reSearchLit pat path)

/-- `file_exists(path)`. -/
def MockStorage.file_exists (st : MockStorage α) (path : String) : Bool :=
  (dictLookup path st.saved_data).isSome

/-- `delete_file(path)`: remove the key and return true when present, else
return false. -/
def MockStorage.delete_file (st : MockStorage α) (path : String) :
    MockStorage α × Bool :=
  if (dictLookup path st.saved_data).isSome then
    (⟨dictErase path st.saved_data⟩, true)
  else
    (st, false)

/-- `rename_file(source_path, target_path)`: when the source is stored, assign
its payload to the target key, delete the source key and return true; when the
source is absent, return false.  The method body cannot raise, so the Except
error channel (present because Python methods may raise) is never used. -/
def MockStorage.rename_file (st : MockStorage α) (source_path target_path : String) :
    Except StorageErr (MockStorage α × Bool) :=
  match dictLookup source_path st.saved_data with
  | some v => .ok (⟨dictErase source_path (dictInsert target_path v st.saved_data)⟩, true)
  | none => .ok (st, false)

/-! ### Dictionary lemmas -/

theorem dictLookup_insert_self (k : String) (v : α) (l : List (String × α)) :
    dictLookup k (dictInsert k v l) = some v := by
  induction l with
  | nil => simp [dictInsert, dictLookup]
  | cons hd tl ih =>
    obtain ⟨k', v'⟩ := hd
    by_cases h : k' = k <;> simp [dictInsert, dictLookup, h, ih]

theorem dictLookup_insert_of_ne (k q : String) (v : α) (l : List (String × α))
    (h : q ≠ k) : dictLookup q (dictInsert k v l) = dictLookup q l := by
  induction l with
  | nil => simp [dictInsert, dictLookup, Ne.symm h]
  | cons hd tl ih =>
    obtain ⟨k', v'⟩ := hd
    by_cases hk : k' = k
    · subst hk
      simp [dictInsert, dictLookup, Ne.symm h]
    · by_cases hq : k' = q <;> simp [dictInsert, dictLookup, hk, hq, ih, h, Ne.symm h]

theorem dictLookup_erase_of_ne (k q : String) (l : List (String × α))
    (h : q ≠ k) : dictLookup q (dictErase k l) = dictLookup q l := by
  induction l with
  | nil => simp [dictErase, dictLookup]
  | cons hd tl ih =>
    obtain ⟨k', v'⟩ := hd
    by_cases hk : k' = k
    · subst hk
      simp [dictErase, dictLookup, Ne.symm h]
    · by_cases hq : k' = q <;> simp [dictErase, dictLookup, hk, hq, ih, h, Ne.symm h]

theorem dictLookup_eq_none_of_not_mem (k : String) (l : List (String × α))
    (h : k ∉ l.map Prod.fst) : dictLookup k l = none := by
  induction l with
  | nil => simp [dictLookup]
  | cons hd tl ih =>
    obtain ⟨k', v'⟩ := hd
    simp only [List.map_cons, List.mem_cons] at h
    push_neg at h
    simp [dictLookup, Ne.symm h.1, ih h.2]

theorem dictLookup_erase_self (k : String) (l : List (String × α))
    (h : (l.map Prod.fst).Nodup) : dictLookup k (dictErase k l) = none := by
  induction l with
  | nil => simp [dictErase, dictLookup]
  | cons hd tl ih =>
    obtain ⟨k', v'⟩ := hd
    simp only [List.map_cons, List.nodup_cons] at h
    by_cases hk : k' = k
    · subst hk
      simpa [dictErase] using dictLookup_eq_none_of_not_mem _ tl h.1
    · simp [dictErase, dictLookup, hk, ih h.2]

theorem mem_keys_insert (k q : String) (v : α) (l : List (String × α)) :
    q ∈ (dictInsert k v l).map Prod.fst ↔ q = k ∨ q ∈ l.map Prod.fst := by
  induction l with
  | nil => simp [dictInsert]
  | cons hd tl ih =>
    obtain ⟨k', v'⟩ := hd
    by_cases hk : k' = k
    · subst hk
      simp only [dictInsert, if_true, eq_self_iff_true, List.map_cons, List.mem_cons]
      tauto
    · simp only [dictInsert, if_neg hk, List.map_cons, List.mem_cons, ih]
      tauto

theorem keys_insert_nodup (k : String) (v : α) (l : List (String × α))
    (h : (l.map Prod.fst).Nodup) : ((dictInsert k v l).map Prod.fst).Nodup := by
  induction l with
  | nil => simp [dictInsert]
  | cons hd tl ih =>
    obtain ⟨k', v'⟩ := hd
    simp only [List.map_cons, List.nodup_cons] at h
    by_cases hk : k' = k
    · subst hk
      simpa [dictInsert] using h
    · simp only [dictInsert, if_neg hk, List.map_cons, List.nodup_cons]
      refine ⟨?_, ih h.2⟩
      rw [mem_keys_insert]
      rintro (rfl | hmem)
      · exact hk rfl
      · exact h.1 hmem

/-! ### Wall-clock timestamps and filename parsing

The aggregator module itself is not shipped with the test tree, so the
functions below are modelled from the specification (section 4.4). -/

/-- A wall-clock timestamp (naive datetime) with calendar date and time of
day, as rendered in individual-file basenames. -/
structure LocalDT where
  year : Nat
  month : Nat
  day : Nat
  hour : Nat
  minute : Nat
  second : Nat
deriving DecidableEq

/-- Numeric value of a decimal digit character, none for a non-digit. -/
def digitVal (c : Char) : Option Nat :=
  if c.isDigit then some (c.toNat - 48) else none

/-- Two decimal digits as a number. -/
def d2 (a b : Char) : Option Nat :=
  match digitVal a, digitVal b with
  | some x, some y => some (x * 10 + y)
  | _, _ => none

/-- Four decimal digits as a number. -/
def d4 (a b c d : Char) : Option Nat :=
  match d2 a b, d2 c d with
  | some x, some y => some (x * 100 + y)
  | _, _ => none

/-- Strip a leading literal run of characters: some rest when the string starts
with the run, none otherwise. -/
def stripLead : List Char → List Char → Option (List Char)
  | [], s => some s
  | _ :: _, [] => none
  | p :: ps, c :: cs => if p = c then stripLead ps cs else none

/-- Strip a trailing literal run of characters. -/
def stripTail (suf s : List Char) : Option (List Char) :=
  match stripLead suf.reverse s.reverse with
  | none => none
  | some r => some r.reverse

/-- Parse the 19 characters YYYY-MM-DD_HH-MM-SS of a basename timestamp. -/
def parseStampChars : List Char → Option LocalDT
  | [y1, y2, y3, y4, c1, mo1, mo2, c2, dd1, dd2, c3, h1, h2, c4, mi1, mi2, c5, s1, s2] =>
    if c1 = '-' ∧ c2 = '-' ∧ c3 = '_' ∧ c4 = '-' ∧ c5 = '-' then
      match d4 y1 y2 y3 y4, d2 mo1 mo2, d2 dd1 dd2, d2 h1 h2, d2 mi1 mi2, d2 s1 s2 with
      | some y, some mo, some dd, some h, some mi, some s => some ⟨y, mo, dd, h, mi, s⟩
      | _, _, _, _, _, _ => none
    else none
  | _ => none

/-- Modelled from the spec (section 4.4 step 1, aggregator module absent from
src/): extract the basename timestamp using the exact pattern
individual_YYYY-MM-DD_HH-MM-SS.parquet; names that fail to parse yield none. -/
def parse_individual_name (name : String) : Option LocalDT :=
  match stripLead "individual_".data name.data with
  | none => none
  | some rest =>
    match stripTail ".parquet".data rest with
    | none => none
    | some stamp => parseStampChars stamp

/-- Modelled from the spec (section 4.4 step 3): floor a wall-clock timestamp
to the nearest multiple of frequency_minutes since local midnight of the same
day; the second field of a window start is zero. -/
def window_start (dt : LocalDT) (frequency_minutes : Nat) : LocalDT :=
  let m := dt.hour * 60 + dt.minute
  let fl := m - m % frequency_minutes
  { dt with hour := fl / 60, minute := fl % 60, second := 0 }

/-- Append a file to the bucket of its window key, keeping the Python-dict
insertion order of keys and the append order of files. -/
def addToGroups (key : LocalDT) (file : String) :
    List (LocalDT × List String) → List (LocalDT × List String)
  | [] => [(key, [file])]
  | (k, fs) :: rest =>
    if k = key then (k, fs ++ [file]) :: rest else (k, fs) :: addToGroups key file rest

/-- Modelled from the spec (section 4.4, AggregatorService._group_files_by_time
absent from src/): bucket individual file paths by the aligned wall-clock
window of their basename timestamps.  The tz argument localizes the parsed
naive timestamp; localization leaves the wall-clock fields unchanged, so it
does not enter the arithmetic. -/
def group_files_by_time (files : List String) (frequency_minutes : Nat)
    (tz : String) : List (LocalDT × List String) :=
  files.foldl (fun groups path =>
    match parse_individual_name (basename path) with
    | none => groups
    | some dt => addToGroups (window_start dt frequency_minutes) path groups) []

/-- The Python regex metacharacters: a pattern avoiding all of them is
matched by `re.search` exactly as a literal substring. -/
def regexMeta : List Char :=
  ['.', '^', '$', '*', '+', '?', '\x7b', '\x7d', '[', ']', '(', ')', '|', '\\']

/-- Is the pattern made only of literal characters (no regex
metacharacters)?  On this fragment `re.search` is literal substring search
and cannot raise `re.error`. -/
def literalPattern (pat : String) : Bool :=
  pat.data.all (fun c => !(regexMeta.contains c))

/-- The pattern fragment the embedding models faithfully: no pattern, a glob
pattern (contains *) without character classes, or a regex pattern of only
literal characters.  Outside this fragment `re.search` has true regex
semantics (or raises `re.error` on an invalid regex) and `fnmatch` has
character classes, which the embedding does not implement. -/
def modelledPattern : Option String → Bool
  | none => true
  | some pat =>
    if pat.data.contains '*' then !(pat.data.contains '[')
    else literalPattern pat

/-- The list contract exactly as the specification words it (section 4.1 with
section 6 of the claim): an optional pattern, glob or regex, is in both cases
applied to the BASENAME of each stored path.  This definition follows the
spec's words and exists to be compared with MockStorage.list_files, which
follows the source. -/
def list_files_spec_basename (st : MockStorage α) (directory : String)
    (pattern : Option String) : List String :=
  st.keys.filter (fun path =>
    strStartsWith path directory &&
      match pattern with
      | none => true
      | some pat =>
        if pat.data.contains '*' then globMatch (basename path) pat
        else reSearchLit pat (basename path))

/-- C4 counterexample: with the single stored path a/b.txt and the literal
regex pattern a (no glob star), list_files matches the pattern against the
full path and returns the file, while the spec's basename-matching contract
returns nothing, because the basename b.txt does not contain a. -/
theorem c4_list_files_counterexample :
    (MockStorage.mk [("a/b.txt", ([] : Payload))]).list_files "a" (some "a") = ["a/b.txt"] ∧
    list_files_spec_basename (MockStorage.mk [("a/b.txt", ([] : Payload))]) "a" (some "a")
      = [] := by
  decide

/-- C4 (amended): for patterns in the modelled fragment (no pattern, a glob
pattern without character classes, or a regex pattern of literal characters),
list(dir, pattern) returns exactly the stored paths whose string prefix
matches dir where a pattern containing a star is glob-matched against the
basename while any other pattern is regex-searched against the FULL path;
within this fragment nothing matching yields the empty list and no error is
possible. -/
theorem c4_list_files_membership (st : MockStorage Payload) (directory path : String)
    (pattern : Option String) (hp : modelledPattern pattern = true) :
    path ∈ st.list_files directory pattern ↔
      path ∈ st.keys ∧ strStartsWith path directory = true ∧
        (match pattern with
         | none => True
         | some pat =>
           ('*' ∈ pat.data ∧ globMatch (basename path) pat = true) ∨
           ('*' ∉ pat.data ∧ reSearchLit pat path = true)) := by
  unfold MockStorage.list_files
  rw [List.mem_filter]
  cases pattern with
  | none => simp
  | some pat =>
    by_cases hm : '*' ∈ pat.data <;>
      simp [hm, Bool.and_eq_true]

/-- C4 witness: the glob pattern of the aggregator, individual_*.parquet, is
in the modelled fragment, and the membership characterization holds for it on
a one-file storage. -/
theorem c4_list_files_membership_witness :
    modelledPattern (some "individual_*.parquet") = true ∧
    ((("a/individual_x.parquet" : String) ∈
        (MockStorage.mk [("a/individual_x.parquet", ([] : Payload))]).list_files "a/"
          (some "individual_*.parquet")) ↔
      (("a/individual_x.parquet" : String) ∈
          (MockStorage.mk [("a/individual_x.parquet", ([] : Payload))]).keys ∧
        strStartsWith "a/individual_x.parquet" "a/" = true ∧
        (('*' ∈ "individual_*.parquet".data ∧
            globMatch (basename "a/individual_x.parquet") "individual_*.parquet" = true) ∨
          ('*' ∉ "individual_*.parquet".data ∧
            reSearchLit "individual_*.parquet" "a/individual_x.parquet" = true)))) :=
  ⟨by decide,
    c4_list_files_membership ⟨[("a/individual_x.parquet", [])]⟩ "a/"
      "a/individual_x.parquet" (some "individual_*.parquet") (by decide)⟩

/-- C8: read_bytes returns exactly the payload most recently stored at a path
by save_bytes, and raises FileNotFoundError when no payload has ever been
stored at the path. -/
theorem c8_read_bytes_contract (st : MockStorage Payload) (data : Payload) (path : String) :
    ((st.save_bytes data path).fst.read_bytes path = .ok data) ∧
    (dictLookup path st.saved_data = none →
      st.read_bytes path = .error (.fileNotFound ("File not found: " ++ path))) := by
  constructor
  · simp [MockStorage.save_bytes, MockStorage.read_bytes, dictLookup_insert_self]
  · intro h
    simp [MockStorage.read_bytes, h]

/-- C8 witness: on the empty storage the path p was never stored, and reading
it raises FileNotFoundError. -/
theorem c8_read_bytes_contract_witness :
    dictLookup "p" (MockStorage.mk ([] : List (String × Payload))).saved_data = none ∧
    (MockStorage.mk ([] : List (String × Payload))).read_bytes "p" =
      .error (.fileNotFound ("File not found: " ++ "p")) :=
  ⟨rfl, (c8_read_bytes_contract ⟨[]⟩ [] "p").2 rfl⟩

/-- C9 counterexample: renaming from a source path that was never stored does
not raise a not-found error; the method returns normally with the boolean
false and the storage unchanged. -/
theorem c9_rename_file_counterexample :
    (MockStorage.mk ([] : List (String × Payload))).rename_file "a" "b" =
      .ok (MockStorage.mk [], false) := by
  rfl

/-- C9 (amended): when no object exists at the source path, rename_file
returns false without raising any error and leaves the storage unchanged;
when the source is stored, it returns true after assigning its payload to the
target key and deleting the source key, and with distinct paths the target
then holds the source's payload. -/
theorem c9_rename_file_behavior (st : MockStorage Payload) (src dst : String) :
    (dictLookup src st.saved_data = none → st.rename_file src dst = .ok (st, false)) ∧
    (∀ v, dictLookup src st.saved_data = some v →
      st.rename_file src dst =
        .ok (⟨dictErase src (dictInsert dst v st.saved_data)⟩, true) ∧
      (src ≠ dst →
        dictLookup dst (dictErase src (dictInsert dst v st.saved_data)) = some v)) := by
  refine ⟨fun h => by simp [MockStorage.rename_file, h], fun v h => ⟨?_, fun hne => ?_⟩⟩
  · simp [MockStorage.rename_file, h]
  · rw [dictLookup_erase_of_ne _ _ _ (Ne.symm hne), dictLookup_insert_self]

/-- C9 witness: on the empty storage the source a is absent and rename_file
returns false with the storage unchanged. -/
theorem c9_rename_file_behavior_witness :
    dictLookup "a" (MockStorage.mk ([] : List (String × Payload))).saved_data = none ∧
    (MockStorage.mk ([] : List (String × Payload))).rename_file "a" "b" =
      .ok (MockStorage.mk [], false) :=
  ⟨rfl, (c9_rename_file_behavior ⟨[]⟩ "a" "b").1 rfl⟩

/-- C10: for distinct stored paths src and dst, rename_file returns true
without any error, the source key disappears, and the target key silently
takes the payload formerly at the source, losing its prior payload. -/
theorem c10_rename_overwrites_target (st : MockStorage Payload) (src dst : String)
    (v w : Payload) (hne : src ≠ dst) (hnd : (st.saved_data.map Prod.fst).Nodup)
    (hsrc : dictLookup src st.saved_data = some v)
    (hdst : dictLookup dst st.saved_data = some w) :
    st.rename_file src dst =
      .ok (⟨dictErase src (dictInsert dst v st.saved_data)⟩, true) ∧
    dictLookup src (dictErase src (dictInsert dst v st.saved_data)) = none ∧
    dictLookup dst (dictErase src (dictInsert dst v st.saved_data)) = some v := by
  refine ⟨by simp [MockStorage.rename_file, hsrc], ?_, ?_⟩
  · exact dictLookup_erase_self _ _ (keys_insert_nodup _ _ _ hnd)
  · rw [dictLookup_erase_of_ne _ _ _ (Ne.symm hne), dictLookup_insert_self]

/-- C10 witness: with s holding the byte 1 and d holding the byte 2, renaming
s onto d succeeds with true, s disappears, and d now silently holds the byte
1 in place of its prior payload. -/
theorem c10_rename_overwrites_target_witness :
    ("s" : String) ≠ "d" ∧
    (MockStorage.mk [("s", ([1] : Payload)), ("d", [2])]).rename_file "s" "d" =
      .ok (⟨dictErase "s" (dictInsert "d" [1]
            (MockStorage.mk [("s", ([1] : Payload)), ("d", [2])]).saved_data)⟩, true) ∧
    dictLookup "s" (dictErase "s" (dictInsert "d" [1]
      (MockStorage.mk [("s", ([1] : Payload)), ("d", [2])]).saved_data)) = none ∧
    dictLookup "d" (dictErase "s" (dictInsert "d" [1]
      (MockStorage.mk [("s", ([1] : Payload)), ("d", [2])]).saved_data)) = some [1] :=
  ⟨by decide,
    c10_rename_overwrites_target ⟨[("s", [1]), ("d", [2])]⟩ "s" "d" [1] [2]
      (by decide) (by decide) (by decide) (by decide)⟩

/-! ### C2: grouping of a 60-file one-hour window series -/

/-- Zero-padded two-digit rendering of a number below 100. -/
def pad2 (n : Nat) : String :=
  if n < 10 then "0" ++ toString n else toString n

/-- The 60 synthetic individual file paths of scenario S2: basename timestamps
at 1-minute intervals starting 2023-01-01T12:00:00. -/
def files60 : List String :=
  (List.range 60).map (fun i =>
    "test_provider/VehiclePosition/individual/individual_2023-01-01_12-" ++
      pad2 i ++ "-00.parquet")

set_option maxRecDepth 4000

/-- C2: grouping the 60 one-minute-interval files with frequency 15 in UTC
yields exactly 4 groups keyed by the window starts 12:00, 12:15, 12:30 and
12:45, each holding exactly 15 of the input paths (their concatenation in
group order is the input list itself). -/
theorem c2_group_files_by_time_s2 :
    (group_files_by_time files60 15 "UTC").map (fun g => (g.fst, g.snd.length)) =
      [(⟨2023, 1, 1, 12, 0, 0⟩, 15), (⟨2023, 1, 1, 12, 15, 0⟩, 15),
       (⟨2023, 1, 1, 12, 30, 0⟩, 15), (⟨2023, 1, 1, 12, 45, 0⟩, 15)] ∧
    (group_files_by_time files60 15 "UTC").flatMap Prod.snd = files60 := by
  decide

/-! ### Fetcher service (modelled from spec sections 4.2 and 4.3)

The FetcherService and feed client modules are not shipped with the test
tree; the definitions below are modelled from the specification.  Parquet
serialization is an external bijection between tables and bytes, so the
fetcher's storage is taken to hold the decoded tables themselves. -/

/-- An in-memory tabular snapshot: ordered column names and rows of cell
strings, one row per feed entity. -/
structure Snapshot where
  columns : List String
  rows : List (List String)
deriving DecidableEq

/-- One decoded GTFS-RT feed entity: its service type and its flattened
fields. -/
structure FeedEntity where
  serviceType : String
  fields : List (String × String)
deriving DecidableEq

/-- Zero-padded four-digit rendering of a year. -/
def pad4 (n : Nat) : String :=
  if n < 10 then "000" ++ toString n
  else if n < 100 then "00" ++ toString n
  else if n < 1000 then "0" ++ toString n
  else toString n

/-- The %Y-%m-%d_%H-%M-%S rendering of a wall-clock timestamp used in
individual-file basenames. -/
def fmtStamp (dt : LocalDT) : String :=
  pad4 dt.year ++ "-" ++ pad2 dt.month ++ "-" ++ pad2 dt.day ++ "_" ++
    pad2 dt.hour ++ "-" ++ pad2 dt.minute ++ "-" ++ pad2 dt.second

/-- Days since 1970-01-01 of a proleptic Gregorian civil date (the standard
civil-calendar conversion with floor division). -/
def daysFromCivil (y m d : Int) : Int :=
  let y' := if m ≤ 2 then y - 1 else y
  let era := y'.fdiv 400
  let yoe := y' - era * 400
  let mp := if m > 2 then m - 3 else m + 9
  let doy := (153 * mp + 2).fdiv 5 + d - 1
  let doe := yoe * 365 + yoe.fdiv 4 - yoe.fdiv 100 + doy
  era * 146097 + doe - 719468

/-- Civil date of a count of days since 1970-01-01 (inverse of
daysFromCivil). -/
def civilFromDays (z : Int) : Int × Int × Int :=
  let z' := z + 719468
  let era := z'.fdiv 146097
  let doe := z' - era * 146097
  let yoe := (doe - doe.fdiv 1460 + doe.fdiv 36524 - doe.fdiv 146096).fdiv 365
  let y := yoe + era * 400
  let doy := doe - (365 * yoe + yoe.fdiv 4 - yoe.fdiv 100)
  let mp := (5 * doy + 2).fdiv 153
  let d := doy - (153 * mp + 2).fdiv 5 + 1
  let m := if mp < 10 then mp + 3 else mp - 9
  (if m ≤ 2 then y + 1 else y, m, d)

/-- Render a UTC instant in a timezone given as an offset in minutes from
UTC: shift the civil timeline by the offset with full day rollover. -/
def toLocal (utc : LocalDT) (offsetMinutes : Int) : LocalDT :=
  let days := daysFromCivil (Int.ofNat utc.year) (Int.ofNat utc.month) (Int.ofNat utc.day)
  let total := days * 1440 + Int.ofNat (utc.hour * 60 + utc.minute) + offsetMinutes
  let d := total.fdiv 1440
  let rem := (total.emod 1440).toNat
  let ymd := civilFromDays d
  ⟨ymd.1.toNat, ymd.2.1.toNat, ymd.2.2.toNat, rem / 60, rem % 60, utc.second⟩

/-- Modelled from the spec (section 4.2, feed client absent from src/):
tabularize the decoded entities of one requested service type into a
snapshot; the fetch_time column carries the fetch instant for every row and
rows preserve source order. -/
def tabularize (entities : List FeedEntity) (serviceType : String)
    (fetchTime : LocalDT) : Snapshot :=
  { columns := ["entity", "fetch_time"]
    rows := (entities.filter (fun e => e.serviceType = serviceType)).map
      (fun e => [String.intercalate ";" (e.fields.map (fun f => f.1 ++ "=" ++ f.2)),
                 fmtStamp fetchTime]) }

/-- Storage key of one individual snapshot file (spec section 4.3 step 5). -/
def individualPath (provider serviceType : String) (localTime : LocalDT) : String :=
  provider ++ "/" ++ serviceType ++ "/individual/individual_" ++
    fmtStamp localTime ++ ".parquet"

/-- Modelled from the spec (section 4.3, FetcherService.run_once absent from
src/): one fetch tick.  The HTTP fetch and protobuf decode are abstracted
into the response argument: none stands for a FetchError or ParseError, on
which the tick returns with no write; a decoded feed is split per requested
service type and each subset is stored under its individual path, whose
timestamp is the fetch instant rendered in the provider timezone (given as a
UTC offset in minutes). -/
def fetcher_run_once (st : MockStorage Snapshot) (provider_name url : String)
    (service_types : List String) (tzOffsetMinutes : Int) (nowUtc : LocalDT)
    (response : Option (List FeedEntity)) : MockStorage Snapshot :=
  match response with
  | none => st
  | some entities =>
    service_types.foldl (fun acc t =>
      (acc.save_bytes (tabularize entities t nowUtc)
        (individualPath provider_name t (toLocal nowUtc tzOffsetMinutes))).fst) st

/-- C3: for a fetch with a single requested service type whose response
decodes as a valid feed, run_once writes exactly one object: the storage
dict gains exactly the individual path of that service type, keyed by the
fetch instant rendered in the provider timezone, holding the tabularized
snapshot; that path is readable back and the stored table has a fetch_time
column. -/
theorem c3_fetcher_run_once_single_type (st : MockStorage Snapshot)
    (provider url serviceType : String) (tz : Int) (now : LocalDT)
    (entities : List FeedEntity) :
    (fetcher_run_once st provider url [serviceType] tz now (some entities)).saved_data =
      dictInsert (individualPath provider serviceType (toLocal now tz))
        (tabularize entities serviceType now) st.saved_data ∧
    (fetcher_run_once st provider url [serviceType] tz now (some entities)).read_bytes
        (individualPath provider serviceType (toLocal now tz)) =
      .ok (tabularize entities serviceType now) ∧
    "fetch_time" ∈ (tabularize entities serviceType now).columns := by
  refine ⟨rfl, ?_, by simp [tabularize]⟩
  simp [fetcher_run_once, MockStorage.save_bytes, MockStorage.read_bytes,
    dictLookup_insert_self]

/-! ### Configuration and job descriptors (spec sections 3, 6 and 9)

The config models module is not shipped with the test tree; the structures
mirror the fields the spec and the unit tests pin down. -/

/-- One fetchable feed (ApiConfig of config/models.py). -/
structure ApiConfig where
  url : String
  services : List String
  refresh_seconds : Nat
  frequency_minutes : Nat := 60
  check_interval_seconds : Nat := 300
deriving DecidableEq

/-- A named group of feeds under one timezone (ProviderConfig). -/
structure ProviderConfig where
  name : String
  timezone : String
  apis : List ApiConfig
deriving DecidableEq

/-- The validated configuration (GtfsRtConfig; the storage section does not
enter the scheduling claims). -/
structure GtfsRtConfig where
  providers : List ProviderConfig
deriving DecidableEq

/-- A keyword-argument value of a job descriptor. -/
inductive KwargValue where
  | str (s : String)
  | strList (l : List String)
  | nat (n : Nat)
deriving DecidableEq

/-- The bound method a job descriptor schedules (spec section 9: descriptors
are value records whose second component is the service's run_once method). -/
inductive JobTarget where
  | fetcherRunOnce
  | aggregatorRunOnce
deriving DecidableEq

/-- A scheduled job as the 4-tuple the source's tests assert on:
(interval_seconds, target method, job name, kwargs). -/
structure JobDescriptor where
  interval_seconds : Nat
  target : JobTarget
  job_name : String
  kwargs : List (String × KwargValue)
deriving DecidableEq

/-- Deterministic unique job name of a fetch job (spec section 4.3). -/
def fetcherJobName (p : ProviderConfig) (api : ApiConfig) : String :=
  "fetch/" ++ p.name ++ "/" ++ api.url

/-- Modelled from the spec (section 4.3, FetcherService.get_scheduling absent
from src/): one descriptor per (provider, api) pair of the configuration,
carrying the api's refresh_seconds, the run_once method, a job name, and the
kwargs provider_name, url, service_types and timezone. -/
def fetcher_get_scheduling (config : GtfsRtConfig) : List JobDescriptor :=
  config.providers.flatMap (fun p =>
    p.apis.map (fun api =>
      { interval_seconds := api.refresh_seconds
        target := .fetcherRunOnce
        job_name := fetcherJobName p api
        kwargs := [("provider_name", .str p.name), ("url", .str api.url),
                   ("service_types", .strList api.services),
                   ("timezone", .str p.timezone)] }))

/-- C5: get_scheduling returns exactly one descriptor per (provider, api)
pair of the configuration, and for every such pair some returned descriptor
carries that api's refresh_seconds first, the run_once method second, a job
name string third, and fourth a kwargs dict with the keys provider_name,
url, service_types and timezone bound to that pair's data. -/
theorem c5_fetcher_get_scheduling (config : GtfsRtConfig) :
    (fetcher_get_scheduling config).length =
      (config.providers.map (fun p => p.apis.length)).sum ∧
    (∀ p ∈ config.providers, ∀ api ∈ p.apis,
      ∃ d ∈ fetcher_get_scheduling config,
        d.interval_seconds = api.refresh_seconds ∧
        d.target = .fetcherRunOnce ∧
        d.job_name = fetcherJobName p api ∧
        ("provider_name", KwargValue.str p.name) ∈ d.kwargs ∧
        ("url", KwargValue.str api.url) ∈ d.kwargs ∧
        ("service_types", KwargValue.strList api.services) ∈ d.kwargs ∧
        ("timezone", KwargValue.str p.timezone) ∈ d.kwargs) := by
  constructor
  · simp [fetcher_get_scheduling, List.length_flatMap, List.length_map, Function.comp_def]
  · intro p hp api hapi
    refine ⟨_, List.mem_flatMap.mpr ⟨p, hp, List.mem_map.mpr ⟨api, hapi, rfl⟩⟩,
      rfl, rfl, rfl, ?_, ?_, ?_, ?_⟩ <;> simp

/-- The three-api test configuration of the fetcher unit test
(tests/unit/test_fetcher_service.py setUp). -/
def testApiVP : ApiConfig :=
  ⟨"http://localhost:8788/vehicle_positions", ["VehiclePosition"], 60, 60, 300⟩

/-- The provider of the fetcher unit test configuration. -/
def testProvider : ProviderConfig :=
  ⟨"test_provider", "UTC",
   [⟨"http://localhost:8788/alerts", ["Alert"], 60, 60, 300⟩,
    ⟨"http://localhost:8788/trip_updates", ["TripUpdate"], 60, 60, 300⟩,
    testApiVP]⟩

/-- The fetcher unit test configuration. -/
def testConfig : GtfsRtConfig := ⟨[testProvider]⟩

/-- C5 witness: on the one-provider three-api configuration of the fetcher
unit test, get_scheduling returns 3 descriptors and the vehicle-positions
api has a matching descriptor. -/
theorem c5_fetcher_get_scheduling_witness :
    (fetcher_get_scheduling testConfig).length = 3 ∧
    testProvider ∈ testConfig.providers ∧
    testApiVP ∈ testProvider.apis ∧
    (∃ d ∈ fetcher_get_scheduling testConfig,
        d.interval_seconds = 60 ∧
        d.target = .fetcherRunOnce ∧
        d.job_name = fetcherJobName testProvider testApiVP ∧
        ("provider_name", KwargValue.str "test_provider") ∈ d.kwargs ∧
        ("url", KwargValue.str "http://localhost:8788/vehicle_positions") ∈ d.kwargs ∧
        ("service_types", KwargValue.strList ["VehiclePosition"]) ∈ d.kwargs ∧
        ("timezone", KwargValue.str "UTC") ∈ d.kwargs) := by
  refine ⟨by decide, by decide, by decide, ?_⟩
  obtain ⟨d, hd, h1, h2, h3, h4, h5, h6, h7⟩ :=
    (c5_fetcher_get_scheduling testConfig).2 testProvider (by decide) testApiVP (by decide)
  exact ⟨d, hd, h1, h2, h3, h4, h5, h6, h7⟩

/-! ### Aggregator file retirement (spec section 4.4, _aggregate_files)

The aggregator module is not shipped with the test tree; _aggregate_files is
modelled from the spec.  The storage put may suffer an IO failure, which the
boolean putOk oracle captures: when it is false the put left no object
behind. -/

/-- Concatenation of loaded tables preserving input file order and, within
each file, row order (spec section 4.4 _aggregate_files step 1). -/
def concatSnapshots (tables : List Snapshot) : Snapshot :=
  { columns := (tables.headD ⟨[], []⟩).columns
    rows := tables.flatMap Snapshot.rows }

/-- Load the listed files from storage in order, skipping unreadable ones. -/
def loadTables (st : MockStorage Snapshot) (files : List String) : List Snapshot :=
  files.filterMap (fun f => dictLookup f st.saved_data)

/-- Delete every listed input path, continuing on individual delete failure
(spec section 4.4 _aggregate_files step 4). -/
def deleteAll (st : MockStorage Snapshot) (files : List String) : MockStorage Snapshot :=
  files.foldl (fun acc f => (acc.delete_file f).fst) st

/-- The storage state right after the put of the aggregate: when the put
succeeded the aggregate object is stored at out_path, when it failed the
state is unchanged. -/
def aggPutState (putOk : Bool) (st : MockStorage Snapshot) (files : List String)
    (out_path : String) : MockStorage Snapshot :=
  if putOk then (st.save_bytes (concatSnapshots (loadTables st files)) out_path).fst
  else st

/-- Modelled from the spec (section 4.4, AggregatorService._aggregate_files
absent from src/): concatenate the input files, put the aggregate at
out_path, verify its existence, and only when the existence check succeeds
delete the input files; if the check fails, abort without deletions. -/
def aggregate_files (putOk : Bool) (st : MockStorage Snapshot) (files : List String)
    (out_path : String) : MockStorage Snapshot :=
  let st1 := aggPutState putOk st files out_path
  if st1.file_exists out_path then deleteAll st1 files else st1

/-- C1: an input file can disappear only after the aggregate's presence at
out_path was verified on the post-put state, and when the existence check
fails the run aborts with the storage exactly as it started, so no input
file is deleted. -/
theorem c1_aggregate_files_deletes_only_after_verify (putOk : Bool)
    (st : MockStorage Snapshot) (files : List String) (out_path : String) :
    ((aggPutState putOk st files out_path).file_exists out_path = false →
      aggregate_files putOk st files out_path = st) ∧
    (∀ f, dictLookup f (aggregate_files putOk st files out_path).saved_data ≠
        dictLookup f (aggPutState putOk st files out_path).saved_data →
      (aggPutState putOk st files out_path).file_exists out_path = true) := by
  constructor
  · intro h
    cases putOk with
    | false => simp_all [aggregate_files, aggPutState]
    | true =>
      exfalso
      simp [aggPutState, MockStorage.file_exists, MockStorage.save_bytes,
        dictLookup_insert_self] at h
  · intro f hf
    by_cases h : (aggPutState putOk st files out_path).file_exists out_path = true
    · exact h
    · exfalso
      apply hf
      have hb : (aggPutState putOk st files out_path).file_exists out_path = false := by
        simpa using h
      simp [aggregate_files, hb]

/-- C1 witness: with a failing put on the empty storage, the existence check
fails and the run leaves the storage untouched; with a succeeding put over a
stored input x, the input x disappears and the pre-deletion state indeed held
the aggregate at o. -/
theorem c1_aggregate_files_deletes_only_after_verify_witness :
    ((aggPutState false (⟨[]⟩ : MockStorage Snapshot) ["x"] "o").file_exists "o" = false ∧
      aggregate_files false (⟨[]⟩ : MockStorage Snapshot) ["x"] "o" = ⟨[]⟩) ∧
    (dictLookup "x"
        (aggregate_files true
          (⟨[("x", ⟨["fetch_time"], [["r"]]⟩)]⟩ : MockStorage Snapshot) ["x"] "o").saved_data ≠
      dictLookup "x"
        (aggPutState true
          (⟨[("x", ⟨["fetch_time"], [["r"]]⟩)]⟩ : MockStorage Snapshot) ["x"] "o").saved_data ∧
      (aggPutState true
        (⟨[("x", ⟨["fetch_time"], [["r"]]⟩)]⟩ : MockStorage Snapshot) ["x"] "o").file_exists "o"
        = true) :=
  ⟨⟨rfl, (c1_aggregate_files_deletes_only_after_verify false ⟨[]⟩ ["x"] "o").1 rfl⟩,
   ⟨by decide,
    (c1_aggregate_files_deletes_only_after_verify true
      ⟨[("x", ⟨["fetch_time"], [["r"]]⟩)]⟩ ["x"] "o").2 "x" (by decide)⟩⟩

/-! ### CLI entry point (spec section 6; utils/cli.py absent from src/) -/

/-- Observable outcome of one CLI invocation: an argparse usage error
(SystemExit with its code and stderr text), a printed config-load error with
main returning normally, or a normal pipeline run. -/
inductive CliOutcome where
  | usageExit (exit_code : Nat) (stderr_text : String)
  | printedError (message : String)
  | ranPipeline (toml_path : String) (log_level : String)
deriving DecidableEq

/-- The argparse usage error written to stderr when the required positional
is missing. -/
def usageErrorText : String :=
  "usage: gtfs_rt_aggregator [-h] [--log-level LOG_LEVEL] toml_path\n" ++
    "gtfs_rt_aggregator: error: the following arguments are required: toml_path"

/-- Positional arguments left after removing every --log-level option and its
value. -/
def parsePositionals : List String → List String
  | [] => []
  | [a] => if a = "--log-level" then [] else [a]
  | a :: b :: rest =>
    if a = "--log-level" then parsePositionals rest
    else a :: parsePositionals (b :: rest)

/-- Value of the last-resort --log-level option, INFO by default. -/
def extractLogLevel : List String → String
  | a :: b :: rest => if a = "--log-level" then b else extractLogLevel (b :: rest)
  | _ => "INFO"

/-- Modelled from the spec (section 6 CLI, utils/cli.py absent from src/) as
pinned by the repository's CLI tests: argparse raises SystemExit with code 2
and a usage error on stderr when the required toml_path positional is
missing (test_cli_with_missing_args); when the config file cannot be loaded,
main prints a message starting with the literal Error: and returns normally
(test_cli_with_invalid_config calls main() with no SystemExit expected), so
the process terminates with exit code 0.  configLoads abstracts whether the
toml file exists and parses. -/
def cli_main (argv : List String) (configLoads : String → Bool) : CliOutcome :=
  match parsePositionals (argv.drop 1) with
  | [] => .usageExit 2 usageErrorText
  | toml_path :: _ =>
    if configLoads toml_path then
      .ranPipeline toml_path (extractLogLevel (argv.drop 1))
    else
      .printedError ("Error: failed to load config from " ++ toml_path)

/-- Process exit code of an outcome: SystemExit carries its code; a normal
return from main exits 0. -/
def exitCodeOf : CliOutcome → Nat
  | .usageExit c _ => c
  | .printedError _ => 0
  | .ranPipeline _ _ => 0

/-- A prefix of the first list extends to a prefix of the first list followed
by anything. -/
theorem charsStartWith_append (p l1 l2 : List Char)
    (h : charsStartWith l1 p = true) : charsStartWith (l1 ++ l2) p = true := by
  induction p generalizing l1 with
  | nil => simp [charsStartWith]
  | cons c cs ih =>
    cases l1 with
    | nil => simp [charsStartWith] at h
    | cons d ds =>
      simp only [List.cons_append, charsStartWith, Bool.and_eq_true] at h ⊢
      exact ⟨h.1, ih ds h.2⟩

/-- C6: invoked with no toml_path argument, the program raises SystemExit
with the nonzero code 2 and the stderr text contains the literal
"the following arguments are required: toml_path". -/
theorem c6_cli_missing_toml_path (configLoads : String → Bool) :
    cli_main ["gtfs_rt_aggregator"] configLoads = .usageExit 2 usageErrorText ∧
    exitCodeOf (cli_main ["gtfs_rt_aggregator"] configLoads) ≠ 0 ∧
    reSearchLit "the following arguments are required: toml_path" usageErrorText = true := by
  refine ⟨rfl, ?_, by decide⟩
  intro h
  rw [show cli_main ["gtfs_rt_aggregator"] configLoads = .usageExit 2 usageErrorText
    from rfl] at h
  exact absurd h (by decide)

/-- C7 counterexample: with a toml path whose config cannot be loaded, the
program prints a message beginning with Error: but main returns normally, so
the process exit code is 0, not nonzero as the claim states. -/
theorem c7_cli_invalid_config_counterexample :
    cli_main ["gtfs_rt_aggregator", "nonexistent_file.toml"] (fun _ => false) =
      .printedError ("Error: failed to load config from nonexistent_file.toml") ∧
    exitCodeOf (cli_main ["gtfs_rt_aggregator", "nonexistent_file.toml"] (fun _ => false))
      = 0 ∧
    strStartsWith "Error: failed to load config from nonexistent_file.toml" "Error:"
      = true :=
  ⟨rfl, rfl, by decide⟩

/-- C7 (amended): invoked with a path to a nonexistent or unparseable config
file, the program emits a message beginning with the literal prefix Error:
and main returns normally, so the process terminates with exit code 0 rather
than a nonzero code. -/
theorem c7_cli_invalid_config (path : String) (configLoads : String → Bool)
    (hpath : path ≠ "--log-level") (hload : configLoads path = false) :
    cli_main ["gtfs_rt_aggregator", path] configLoads =
      .printedError ("Error: failed to load config from " ++ path) ∧
    strStartsWith ("Error: failed to load config from " ++ path) "Error:" = true ∧
    exitCodeOf (cli_main ["gtfs_rt_aggregator", path] configLoads) = 0 := by
  have hrun : cli_main ["gtfs_rt_aggregator", path] configLoads =
      .printedError ("Error: failed to load config from " ++ path) := by
    simp [cli_main, parsePositionals, hpath, hload]
  refine ⟨hrun, ?_, by rw [hrun]; rfl⟩
  rw [strStartsWith, String.data_append]
  exact charsStartWith_append _ _ _ (by decide)

/-- C7 witness: the config loader that fails on every path fails on
nonexistent_file.toml, and the run prints the Error: message and exits 0. -/
theorem c7_cli_invalid_config_witness :
    ("nonexistent_file.toml" : String) ≠ "--log-level" ∧
    (fun (_ : String) => false) "nonexistent_file.toml" = false ∧
    (cli_main ["gtfs_rt_aggregator", "nonexistent_file.toml"] (fun _ => false) =
        .printedError ("Error: failed to load config from " ++ "nonexistent_file.toml") ∧
      strStartsWith ("Error: failed to load config from " ++ "nonexistent_file.toml")
        "Error:" = true ∧
      exitCodeOf (cli_main ["gtfs_rt_aggregator", "nonexistent_file.toml"]
        (fun _ => false)) = 0) :=
  ⟨by decide, rfl,
    c7_cli_invalid_config "nonexistent_file.toml" (fun _ => false) (by decide) rfl⟩

end GtfsRt
